import Mathlib

set_option linter.unusedVariables false

/-!
# Shallow embedding of the `hvac-occupancy-forecasting` package

Each Python function of the repository is embedded as a Lean function
returning `Except PyError α`: `Except.error` models a raised exception and
`Except.ok` a normal return.  Python `pandas.DataFrame` values are modelled
as a list of column names together with rows of abstract cell values;
no function of the repository ever inspects the cells, so the cell type
only needs decidable equality.  Keyword-argument dictionaries
(`**kwargs`, `policy_params`, `comfort_constraints`) are modelled as
association lists of cell values.
-/

/-- The two exception classes the package raises:
`NotImplementedError` and `ValueError`, each carrying its message string. -/
inductive PyError where
  | notImplementedError (msg : String)
  | valueError (msg : String)
deriving DecidableEq, Repr

/-- An abstract Python cell value (int, string, bool or None), enough to
populate DataFrames and keyword dictionaries. -/
inductive PyVal where
  | int (i : Int)
  | str (s : String)
  | bool (b : Bool)
  | none_
deriving DecidableEq, Repr

/-- A Python dict such as `policy_params` or `**kwargs`, as an association list. -/
abbrev PyDict := List (String × PyVal)

/-- Model of `pandas.DataFrame`: named columns and rows of cells. -/
structure DataFrame where
  cols : List String
  rows : List (List PyVal)
deriving DecidableEq, Repr

/-- `pandas.DataFrame.copy()`: produces a DataFrame equal in value to the
original (value semantics make the copy the same Lean value). -/
def DataFrame.copy (df : DataFrame) : DataFrame := df

/-- `matplotlib.pyplot.Figure`; never constructed by the repository. -/
structure Figure where
  dummy : Unit

/-- `True` unless the result is a `NotImplementedError` with an empty message. -/
def notImplMsgNonempty {α : Type} : Except PyError α → Bool
  | .error (.notImplementedError msg) => 0 < msg.length
  | _ => true

/-- `Bool` test that a result is a `NotImplementedError` (any message). -/
def isNotImplemented {α : Type} : Except PyError α → Bool
  | .error (.notImplementedError _) => true
  | _ => false

/-- `Bool` test that a result is an exception (either class). -/
def raisesError {α : Type} : Except PyError α → Bool
  | .error _ => true
  | .ok _ => false

/-! ## `src/data/load.py` -/

/-- `load_occupancy(path, parse_dates=True)`: raises unconditionally. -/
def load_occupancy (path : String) (parse_dates : Bool := true) :
    Except PyError DataFrame :=
  .error (.notImplementedError "Implement once raw data format is confirmed")

/-- `load_hvac(path, parse_dates=True)`: raises unconditionally. -/
def load_hvac (path : String) (parse_dates : Bool := true) :
    Except PyError DataFrame :=
  .error (.notImplementedError "Implement once raw data format is confirmed")

/-- `load_weather(path, parse_dates=True)`: raises unconditionally. -/
def load_weather (path : String) (parse_dates : Bool := true) :
    Except PyError DataFrame :=
  .error (.notImplementedError "Implement once raw data format is confirmed")

/-- `load_tou(path, parse_dates=True)`: raises unconditionally. -/
def load_tou (path : String) (parse_dates : Bool := true) :
    Except PyError DataFrame :=
  .error (.notImplementedError "Implement once raw data format is confirmed")

/-- `load_space_metadata(path)`: raises unconditionally. -/
def load_space_metadata (path : String) : Except PyError DataFrame :=
  .error (.notImplementedError "Implement once raw data format is confirmed")

/-! ## `src/data/preprocess.py` -/

/-- `merge_occupancy_hvac(occ_df, hvac_df, freq="15min", how="inner")`:
raises unconditionally. -/
def merge_occupancy_hvac (occ_df hvac_df : DataFrame)
    (freq : String := "15min") (how : String := "inner") :
    Except PyError DataFrame :=
  .error (.notImplementedError "Implement merge logic once data schemas are confirmed")

/-- `add_weather_features(df, weather_df)`: raises unconditionally. -/
def add_weather_features (df weather_df : DataFrame) : Except PyError DataFrame :=
  .error (.notImplementedError "Implement weather feature merging")

/-- `add_tou_features(df, tou_df)`: raises unconditionally. -/
def add_tou_features (df tou_df : DataFrame) : Except PyError DataFrame :=
  .error (.notImplementedError "Implement TOU feature merging")

/-- `engineer_features(df, include_time_features=True, include_lag_features=True,
lag_periods=None)`: defaults `lag_periods` to `[1, 4, 96]`, copies the input,
passes through two flag-gated branches whose bodies are commented out
(`pass`), and returns the copy. -/
def engineer_features (df : DataFrame)
    (include_time_features : Bool := true)
    (include_lag_features : Bool := true)
    (lag_periods : Option (List Int) := none) :
    Except PyError DataFrame :=
  let _lag_periods := lag_periods.getD [1, 4, 96]
  let result := df.copy
  -- `if include_time_features: pass` — body commented out in source
  let result := if include_time_features then result else result
  -- `if include_lag_features: pass` — body commented out in source
  let result := if include_lag_features then result else result
  .ok result

/-- `compute_opportunity_for_savings(df, ...)`: copies the input and then
raises unconditionally. -/
def compute_opportunity_for_savings (df : DataFrame)
    (occupancy_col : String := "occupancy_count")
    (hvac_state_col : String := "hvac_on")
    (energy_col : Option String := some "energy_kwh") :
    Except PyError DataFrame :=
  let _result := df.copy
  .error (.notImplementedError "Implement opportunity for savings calculation")

/-! ## `src/control/optimizer.py` -/

/-- The default comfort-constraint dictionary established by
`compute_savings_and_setpoints` before it raises. -/
def defaultComfortConstraints : PyDict :=
  [("min_temp", .int 60), ("max_temp", .int 85),
   ("pre_condition_time", .int 30), ("occupancy_threshold", .int 0)]

/-- `compute_savings_and_setpoints(occupancy_forecast, hvac_baseline,
tou_rates=None, comfort_constraints=None)`: fills in the default comfort
constraints when `None`, then raises unconditionally. -/
def compute_savings_and_setpoints (occupancy_forecast hvac_baseline : DataFrame)
    (tou_rates : Option DataFrame := none)
    (comfort_constraints : Option PyDict := none) :
    Except PyError (DataFrame × PyDict) :=
  let _comfort_constraints := comfort_constraints.getD defaultComfortConstraints
  .error (.notImplementedError
    "Implement setpoint optimization and savings calculation")

/-- `estimate_savings_potential(historical_df, ...)`: raises unconditionally. -/
def estimate_savings_potential (historical_df : DataFrame)
    (occupancy_col : String := "occupancy_count")
    (hvac_on_col : String := "hvac_on")
    (energy_col : String := "energy_kwh")
    (tou_rate_col : Option String := none) :
    Except PyError PyDict :=
  .error (.notImplementedError "Implement historical savings potential analysis")

/-- The list `valid_policies` of `simulate_control_policy`. -/
def valid_policies : List String :=
  ["occupancy_setback", "predictive_setback", "optimal_schedule"]

/-- Python `repr` of a string: the string between single quotes
(`\x27` is the apostrophe). -/
def pyStrRepr (s : String) : String := "\x27" ++ s ++ "\x27"

/-- Python `str` of a list of strings, as an f-string renders it:
`[` then the quoted elements joined by `, ` then `]`. -/
def pyListRepr (xs : List String) : String :=
  "[" ++ String.intercalate ", " (xs.map pyStrRepr) ++ "]"

/-- The message of the `ValueError` in `simulate_control_policy`:
the f-string `Policy must be one of {valid_policies}` after interpolation. -/
def simulatePolicyErrorMsg : String :=
  "Policy must be one of " ++ pyListRepr valid_policies

/-- `simulate_control_policy(historical_df, policy="occupancy_setback",
policy_params=None)`: raises `ValueError` when the policy name is outside
`valid_policies`, otherwise raises `NotImplementedError`. -/
def simulate_control_policy (historical_df : DataFrame)
    (policy : String := "occupancy_setback")
    (policy_params : Option PyDict := none) :
    Except PyError (DataFrame × PyDict) :=
  if policy ∉ valid_policies then
    .error (.valueError simulatePolicyErrorMsg)
  else
    .error (.notImplementedError "Implement control policy simulation")

/-! ## `src/models/prophet_baseline.py` -/

/-- The state of a `ProphetOccupancyModel` instance: the attributes set by
`__init__`.  `model` holds the underlying fitted Prophet instance, which no
code path ever constructs, so its payload type is `Unit`. -/
structure ProphetOccupancyModel where
  zone_id : Option String
  freq : String
  prophet_kwargs : PyDict
  model : Option Unit
deriving DecidableEq, Repr

/-- `ProphetOccupancyModel.__init__(zone_id=None, freq="15min",
**prophet_kwargs)`: sets the attributes and leaves `model = None`. -/
def ProphetOccupancyModel.init (zone_id : Option String := none)
    (freq : String := "15min") (prophet_kwargs : PyDict := []) :
    ProphetOccupancyModel :=
  { zone_id := zone_id, freq := freq, prophet_kwargs := prophet_kwargs,
    model := none }

/-- `ProphetOccupancyModel.fit(df)`: raises unconditionally, before any
assignment to `self.model`. -/
def ProphetOccupancyModel.fit (self : ProphetOccupancyModel) (df : DataFrame) :
    Except PyError ProphetOccupancyModel :=
  .error (.notImplementedError "Implement Prophet model fitting")

/-- `ProphetOccupancyModel.predict(periods, include_history=False)`:
raises `ValueError` when `self.model is None`, else `NotImplementedError`. -/
def ProphetOccupancyModel.predict (self : ProphetOccupancyModel)
    (periods : Int) (include_history : Bool := false) :
    Except PyError DataFrame :=
  if self.model = none then
    .error (.valueError "Model must be fitted before prediction")
  else
    .error (.notImplementedError "Implement Prophet prediction")

/-- `ProphetOccupancyModel.evaluate(test_df, metrics=None)`: defaults the
metric list, then raises unconditionally (no fitted-state guard). -/
def ProphetOccupancyModel.evaluate (self : ProphetOccupancyModel)
    (test_df : DataFrame) (metrics : Option (List String) := none) :
    Except PyError PyDict :=
  let _metrics := metrics.getD ["mae", "rmse", "mape"]
  .error (.notImplementedError "Implement model evaluation")

/-! ## `src/models/transformer_baseline.py` -/

/-- The state of a `TransformerOccupancyModel` instance: the attributes set
by `__init__`.  `model` and `scaler` are never assigned by any code path,
so their payload types are `Unit`. -/
structure TransformerOccupancyModel where
  zone_id : Option String
  seq_length : Int
  pred_length : Int
  d_model : Int
  n_heads : Int
  n_layers : Int
  kwargs : PyDict
  model : Option Unit
  scaler : Option Unit
deriving DecidableEq, Repr

/-- `TransformerOccupancyModel.__init__(zone_id=None, seq_length=96,
pred_length=96, d_model=64, n_heads=4, n_layers=2, **kwargs)`: sets the
attributes and leaves `model = None`, `scaler = None`. -/
def TransformerOccupancyModel.init (zone_id : Option String := none)
    (seq_length : Int := 96) (pred_length : Int := 96) (d_model : Int := 64)
    (n_heads : Int := 4) (n_layers : Int := 2) (kwargs : PyDict := []) :
    TransformerOccupancyModel :=
  { zone_id := zone_id, seq_length := seq_length, pred_length := pred_length,
    d_model := d_model, n_heads := n_heads, n_layers := n_layers,
    kwargs := kwargs, model := none, scaler := none }

/-- `TransformerOccupancyModel._build_model()`: raises unconditionally. -/
def TransformerOccupancyModel.build_model (self : TransformerOccupancyModel) :
    Except PyError Unit :=
  .error (.notImplementedError "Implement transformer architecture")

/-- `TransformerOccupancyModel._prepare_sequences(df, target_col=...,
feature_cols=None)`: raises unconditionally. -/
def TransformerOccupancyModel.prepare_sequences (self : TransformerOccupancyModel)
    (df : DataFrame) (target_col : String := "occupancy_count")
    (feature_cols : Option (List String) := none) :
    Except PyError (List PyVal × List PyVal) :=
  .error (.notImplementedError "Implement sequence preparation")

/-- `TransformerOccupancyModel.fit(df, epochs=100, batch_size=32,
learning_rate=1e-3, val_split=0.2)`: raises unconditionally, before any
assignment to `self.model`. -/
def TransformerOccupancyModel.fit (self : TransformerOccupancyModel)
    (df : DataFrame) (epochs : Int := 100) (batch_size : Int := 32) :
    Except PyError TransformerOccupancyModel :=
  .error (.notImplementedError "Implement transformer training")

/-- `TransformerOccupancyModel.predict(df, horizon=None)`: raises
`ValueError` when `self.model is None`, else `NotImplementedError`. -/
def TransformerOccupancyModel.predict (self : TransformerOccupancyModel)
    (df : DataFrame) (horizon : Option Int := none) :
    Except PyError DataFrame :=
  if self.model = none then
    .error (.valueError "Model must be fitted before prediction")
  else
    .error (.notImplementedError "Implement transformer prediction")

/-- `TransformerOccupancyModel.evaluate(test_df, metrics=None)`: defaults the
metric list, then raises unconditionally (no fitted-state guard). -/
def TransformerOccupancyModel.evaluate (self : TransformerOccupancyModel)
    (test_df : DataFrame) (metrics : Option (List String) := none) :
    Except PyError PyDict :=
  let _metrics := metrics.getD ["mae", "rmse", "mape"]
  .error (.notImplementedError "Implement model evaluation")

/-! ## `src/viz/dashboards.py` -/

/-- `plot_daily_opportunity_for_savings(df, ...)`: raises unconditionally. -/
def plot_daily_opportunity_for_savings (df : DataFrame)
    (date_col : String := "date")
    (opportunity_energy_col : String := "opportunity_energy_kwh")
    (total_energy_col : String := "total_energy_kwh")
    (figsize : Int × Int := (12, 6))
    (title : Option String := none) :
    Except PyError Figure :=
  .error (.notImplementedError "Implement daily opportunity plot")

/-- `plot_example_day_timeline(df, date, zone_id=None, figsize=(14, 8))`:
raises unconditionally. -/
def plot_example_day_timeline (df : DataFrame) (date : String)
    (zone_id : Option String := none)
    (figsize : Int × Int := (14, 8)) :
    Except PyError Figure :=
  .error (.notImplementedError "Implement example day timeline plot")

/-- `plot_occupancy_heatmap(df, zone_id=None, agg_func="mean",
figsize=(12, 8))`: raises unconditionally. -/
def plot_occupancy_heatmap (df : DataFrame)
    (zone_id : Option String := none)
    (agg_func : String := "mean")
    (figsize : Int × Int := (12, 8)) :
    Except PyError Figure :=
  .error (.notImplementedError "Implement occupancy heatmap")

/-- `plot_savings_summary(savings_dict, figsize=(10, 6))`: raises
unconditionally. -/
def plot_savings_summary (savings_dict : PyDict)
    (figsize : Int × Int := (10, 6)) :
    Except PyError Figure :=
  .error (.notImplementedError "Implement savings summary plot")

/-- `create_interactive_dashboard(df, port=8050)`: raises unconditionally. -/
def create_interactive_dashboard (df : DataFrame) (port : Int := 8050) :
    Except PyError Unit :=
  .error (.notImplementedError "Implement interactive dashboard")

/-! ## Auxiliary definitions for the verification -/

/-- A small concrete DataFrame used to evaluate the functions at a point. -/
def testDf : DataFrame :=
  { cols := ["timestamp", "zone_id", "occupancy_count"],
    rows := [[.str "2024-01-01 09:00", .str "Z1", .int 0]] }

/-- `hasInfix pat l` holds when `pat` occurs contiguously inside `l`. -/
def hasInfix (pat : List Char) : List Char → Bool
  | [] => pat.isEmpty
  | c :: cs => pat.isPrefixOf (c :: cs) || hasInfix pat cs

/-- `citesName msg name` holds when `name` occurs as a substring of `msg`. -/
def citesName (msg name : String) : Bool :=
  hasInfix name.data msg.data

/-- Instances of `ProphetOccupancyModel` reachable by method calls:
`__init__` with any arguments, followed by any successful `fit`. -/
inductive ProphetReachable : ProphetOccupancyModel → Prop
  | init : ∀ zone freq kw,
      ProphetReachable (ProphetOccupancyModel.init zone freq kw)
  | fit : ∀ m df m', ProphetReachable m → m.fit df = .ok m' →
      ProphetReachable m'

/-- Instances of `TransformerOccupancyModel` reachable by method calls:
`__init__` with any arguments, followed by any successful `fit`. -/
inductive TransformerReachable : TransformerOccupancyModel → Prop
  | init : ∀ zone sl pl dm nh nl kw,
      TransformerReachable (TransformerOccupancyModel.init zone sl pl dm nh nl kw)
  | fit : ∀ m df e b m', TransformerReachable m → m.fit df e b = .ok m' →
      TransformerReachable m'

/-! ## Claim C1 -/

/-- Claim C1, counterexample: `engineer_features`, a public function of the
preprocessing layer that is not one of the two implemented validations,
returns normally on a concrete input instead of raising
`NotImplementedError`, refuting the claim as stated. -/
theorem C1_counterexample :
    engineer_features testDf true true none = Except.ok testDf ∧
    isNotImplemented (engineer_features testDf true true none) = false :=
  ⟨rfl, rfl⟩

/-- Claim C1, amended: every public function in the data-loading,
preprocessing, optimizer, and model layers except `engineer_features`
(which returns normally) raises `NotImplementedError` on every input,
apart from the two implemented validations: `simulate_control_policy`
may instead raise its policy-name `ValueError`, and the two `predict`
methods may instead raise the fit-before-predict `ValueError`. -/
theorem C1_stub_layers_raise_not_implemented :
    (∀ path pd, isNotImplemented (load_occupancy path pd) = true) ∧
    (∀ path pd, isNotImplemented (load_hvac path pd) = true) ∧
    (∀ path pd, isNotImplemented (load_weather path pd) = true) ∧
    (∀ path pd, isNotImplemented (load_tou path pd) = true) ∧
    (∀ path, isNotImplemented (load_space_metadata path) = true) ∧
    (∀ o h f w, isNotImplemented (merge_occupancy_hvac o h f w) = true) ∧
    (∀ df w, isNotImplemented (add_weather_features df w) = true) ∧
    (∀ df t, isNotImplemented (add_tou_features df t) = true) ∧
    (∀ df oc hc ec, isNotImplemented (compute_opportunity_for_savings df oc hc ec) = true) ∧
    (∀ o h t c, isNotImplemented (compute_savings_and_setpoints o h t c) = true) ∧
    (∀ df oc hc ec tc, isNotImplemented (estimate_savings_potential df oc hc ec tc) = true) ∧
    (∀ df p pp, isNotImplemented (simulate_control_policy df p pp) = true ∨
      simulate_control_policy df p pp = .error (.valueError simulatePolicyErrorMsg)) ∧
    (∀ m df, isNotImplemented (ProphetOccupancyModel.fit m df) = true) ∧
    (∀ m p ih, isNotImplemented (ProphetOccupancyModel.predict m p ih) = true ∨
      ProphetOccupancyModel.predict m p ih =
        .error (.valueError "Model must be fitted before prediction")) ∧
    (∀ m df ms, isNotImplemented (ProphetOccupancyModel.evaluate m df ms) = true) ∧
    (∀ m df e b, isNotImplemented (TransformerOccupancyModel.fit m df e b) = true) ∧
    (∀ m df hz, isNotImplemented (TransformerOccupancyModel.predict m df hz) = true ∨
      TransformerOccupancyModel.predict m df hz =
        .error (.valueError "Model must be fitted before prediction")) ∧
    (∀ m df ms, isNotImplemented (TransformerOccupancyModel.evaluate m df ms) = true) := by
  refine ⟨?_, ?_, ?_, ?_, ?_, ?_, ?_, ?_, ?_, ?_, ?_, ?_, ?_, ?_, ?_, ?_, ?_, ?_⟩ <;>
    intros <;>
    first
      | rfl
      | (unfold simulate_control_policy; split
         · exact Or.inr rfl
         · exact Or.inl rfl)
      | (unfold ProphetOccupancyModel.predict; split
         · exact Or.inr rfl
         · exact Or.inl rfl)
      | (unfold TransformerOccupancyModel.predict; split
         · exact Or.inr rfl
         · exact Or.inl rfl)

/-! ## Claim C2 -/

/-- Claim C2: `simulate_control_policy` raises a `ValueError` whose message
cites all three valid policy names whenever the policy argument is outside
`valid_policies`, and raises `NotImplementedError` for every policy inside
the set, regardless of `historical_df` and `policy_params`. -/
theorem C2_simulate_policy_validation (df : DataFrame) (policy : String)
    (params : Option PyDict) :
    (policy ∉ valid_policies →
      simulate_control_policy df policy params =
        .error (.valueError simulatePolicyErrorMsg) ∧
      citesName simulatePolicyErrorMsg "occupancy_setback" = true ∧
      citesName simulatePolicyErrorMsg "predictive_setback" = true ∧
      citesName simulatePolicyErrorMsg "optimal_schedule" = true) ∧
    (policy ∈ valid_policies →
      simulate_control_policy df policy params =
        .error (.notImplementedError "Implement control policy simulation")) := by
  constructor
  · intro h
    refine ⟨?_, by decide, by decide, by decide⟩
    unfold simulate_control_policy
    simp [h]
  · intro h
    unfold simulate_control_policy
    simp [h]

/-- Claim C2, witness: the theorem applied at `policy="invalid_policy"`
(outside the set) and at `policy="occupancy_setback"` (inside the set). -/
theorem C2_simulate_policy_validation_witness :
    (simulate_control_policy testDf "invalid_policy" none =
      .error (.valueError simulatePolicyErrorMsg) ∧
     citesName simulatePolicyErrorMsg "occupancy_setback" = true ∧
     citesName simulatePolicyErrorMsg "predictive_setback" = true ∧
     citesName simulatePolicyErrorMsg "optimal_schedule" = true) ∧
    simulate_control_policy testDf "occupancy_setback" none =
      .error (.notImplementedError "Implement control policy simulation") :=
  ⟨(C2_simulate_policy_validation testDf "invalid_policy" none).1 (by decide),
   (C2_simulate_policy_validation testDf "occupancy_setback" none).2 (by decide)⟩

/-! ## Claim C3 -/

/-- Claim C3: for both model classes, `predict` on a freshly constructed
instance (any constructor arguments, `model = None`) raises
`ValueError "Model must be fitted before prediction"` for every argument
value. -/
theorem C3_predict_before_fit (zone : Option String) (freq : String)
    (kw : PyDict) (periods : Int) (ih : Bool) (zone2 : Option String)
    (sl pl dm nh nl : Int) (kw2 : PyDict) (df : DataFrame)
    (horizon : Option Int) :
    (ProphetOccupancyModel.init zone freq kw).predict periods ih =
      .error (.valueError "Model must be fitted before prediction") ∧
    (TransformerOccupancyModel.init zone2 sl pl dm nh nl kw2).predict df horizon =
      .error (.valueError "Model must be fitted before prediction") :=
  ⟨rfl, rfl⟩

/-! ## Claim C4 -/

/-- Claim C4: `engineer_features`, with `include_time_features=True` and
`include_lag_features=True` (and any `lag_periods`), returns a table equal
to a copy of the input with no added columns, and its return value is the
same for every combination of the flag arguments. -/
theorem C4_engineer_features_noop (df : DataFrame) (tf lf tf2 lf2 : Bool)
    (lp lp2 : Option (List Int)) :
    engineer_features df true true lp = .ok df.copy ∧
    df.copy = df ∧
    (DataFrame.copy df).cols = df.cols ∧
    engineer_features df tf lf lp = engineer_features df tf2 lf2 lp2 :=
  ⟨rfl, rfl, rfl,
   by cases tf <;> cases lf <;> cases tf2 <;> cases lf2 <;> rfl⟩

/-! ## Claim C5 -/

/-- Claim C5, counterexample: on freshly constructed instances of both
model classes (internal `model` attribute `None`), `evaluate` raises
`NotImplementedError "Implement model evaluation"`, not the invalid-state
fit-before-predict `ValueError` the claim requires. -/
theorem C5_counterexample :
    (ProphetOccupancyModel.init none "15min" []).evaluate testDf none =
      .error (.notImplementedError "Implement model evaluation") ∧
    (ProphetOccupancyModel.init none "15min" []).evaluate testDf none ≠
      .error (.valueError "Model must be fitted before prediction") ∧
    (TransformerOccupancyModel.init none 96 96 64 4 2 []).evaluate testDf none =
      .error (.notImplementedError "Implement model evaluation") ∧
    (TransformerOccupancyModel.init none 96 96 64 4 2 []).evaluate testDf none ≠
      .error (.valueError "Model must be fitted before prediction") := by
  refine ⟨rfl, ?_, rfl, ?_⟩ <;> simp [ProphetOccupancyModel.evaluate,
    TransformerOccupancyModel.evaluate]

/-- Claim C5, amended: for both model classes, `evaluate` performs no
fitted-state guard at all: it raises
`NotImplementedError "Implement model evaluation"` on every instance
(fitted or not) and every argument; only `predict` guards on the fitted
state. -/
theorem C5_evaluate_raises_not_implemented (self : ProphetOccupancyModel)
    (self2 : TransformerOccupancyModel) (test_df : DataFrame)
    (metrics metrics2 : Option (List String)) :
    self.evaluate test_df metrics =
      .error (.notImplementedError "Implement model evaluation") ∧
    self2.evaluate test_df metrics2 =
      .error (.notImplementedError "Implement model evaluation") :=
  ⟨rfl, rfl⟩

/-! ## Claim C6 -/

/-- Claim C6: each of the four plotting functions and the dashboard
launcher raises `NotImplementedError` unconditionally, for every input;
none returns a figure. -/
theorem C6_viz_unimplemented :
    (∀ df dc oc tc fs t, plot_daily_opportunity_for_savings df dc oc tc fs t =
      .error (.notImplementedError "Implement daily opportunity plot")) ∧
    (∀ df d z fs, plot_example_day_timeline df d z fs =
      .error (.notImplementedError "Implement example day timeline plot")) ∧
    (∀ df z a fs, plot_occupancy_heatmap df z a fs =
      .error (.notImplementedError "Implement occupancy heatmap")) ∧
    (∀ sd fs, plot_savings_summary sd fs =
      .error (.notImplementedError "Implement savings summary plot")) ∧
    (∀ df p, create_interactive_dashboard df p =
      .error (.notImplementedError "Implement interactive dashboard")) := by
  refine ⟨?_, ?_, ?_, ?_, ?_⟩ <;> intros <;> rfl

/-! ## Claim C7 -/

/-- Claim C7: every `NotImplementedError` raised anywhere in the codebase
(every function and method, private helpers included, on every input)
carries a non-empty message string. -/
theorem C7_not_implemented_messages_nonempty :
    (∀ path pd, notImplMsgNonempty (load_occupancy path pd) = true) ∧
    (∀ path pd, notImplMsgNonempty (load_hvac path pd) = true) ∧
    (∀ path pd, notImplMsgNonempty (load_weather path pd) = true) ∧
    (∀ path pd, notImplMsgNonempty (load_tou path pd) = true) ∧
    (∀ path, notImplMsgNonempty (load_space_metadata path) = true) ∧
    (∀ o h f w, notImplMsgNonempty (merge_occupancy_hvac o h f w) = true) ∧
    (∀ df w, notImplMsgNonempty (add_weather_features df w) = true) ∧
    (∀ df t, notImplMsgNonempty (add_tou_features df t) = true) ∧
    (∀ df tf lf lp, notImplMsgNonempty (engineer_features df tf lf lp) = true) ∧
    (∀ df oc hc ec, notImplMsgNonempty (compute_opportunity_for_savings df oc hc ec) = true) ∧
    (∀ o h t c, notImplMsgNonempty (compute_savings_and_setpoints o h t c) = true) ∧
    (∀ df oc hc ec tc, notImplMsgNonempty (estimate_savings_potential df oc hc ec tc) = true) ∧
    (∀ df p pp, notImplMsgNonempty (simulate_control_policy df p pp) = true) ∧
    (∀ m df, notImplMsgNonempty (ProphetOccupancyModel.fit m df) = true) ∧
    (∀ m p ih, notImplMsgNonempty (ProphetOccupancyModel.predict m p ih) = true) ∧
    (∀ m df ms, notImplMsgNonempty (ProphetOccupancyModel.evaluate m df ms) = true) ∧
    (∀ m, notImplMsgNonempty (TransformerOccupancyModel.build_model m) = true) ∧
    (∀ m df tc fc, notImplMsgNonempty (TransformerOccupancyModel.prepare_sequences m df tc fc) = true) ∧
    (∀ m df e b, notImplMsgNonempty (TransformerOccupancyModel.fit m df e b) = true) ∧
    (∀ m df hz, notImplMsgNonempty (TransformerOccupancyModel.predict m df hz) = true) ∧
    (∀ m df ms, notImplMsgNonempty (TransformerOccupancyModel.evaluate m df ms) = true) ∧
    (∀ df dc oc tc fs t, notImplMsgNonempty (plot_daily_opportunity_for_savings df dc oc tc fs t) = true) ∧
    (∀ df d z fs, notImplMsgNonempty (plot_example_day_timeline df d z fs) = true) ∧
    (∀ df z a fs, notImplMsgNonempty (plot_occupancy_heatmap df z a fs) = true) ∧
    (∀ sd fs, notImplMsgNonempty (plot_savings_summary sd fs) = true) ∧
    (∀ df p, notImplMsgNonempty (create_interactive_dashboard df p) = true) := by
  refine ⟨?_, ?_, ?_, ?_, ?_, ?_, ?_, ?_, ?_, ?_, ?_, ?_, ?_, ?_, ?_, ?_, ?_,
    ?_, ?_, ?_, ?_, ?_, ?_, ?_, ?_, ?_⟩ <;>
    intros <;>
    first
      | rfl
      | (unfold simulate_control_policy; split <;> rfl)
      | (unfold ProphetOccupancyModel.predict; split <;> rfl)
      | (unfold TransformerOccupancyModel.predict; split <;> rfl)

/-! ## Claim C8 -/

/-- Claim C8: for both model classes the Fitted state is unreachable: on
every instance reachable by any sequence of method calls the `model`
attribute is `None` and `predict` raises the invalid-state `ValueError`,
so no call sequence ever makes `predict` pass its guard. -/
theorem C8_fitted_state_unreachable :
    (∀ m, ProphetReachable m → m.model = none ∧
      ∀ periods ih, m.predict periods ih =
        .error (.valueError "Model must be fitted before prediction")) ∧
    (∀ m, TransformerReachable m → m.model = none ∧
      ∀ df horizon, m.predict df horizon =
        .error (.valueError "Model must be fitted before prediction")) := by
  constructor
  · intro m h
    induction h with
    | init zone freq kw => exact ⟨rfl, fun periods ih => rfl⟩
    | fit m df m' hr heq ih => simp [ProphetOccupancyModel.fit] at heq
  · intro m h
    induction h with
    | init zone sl pl dm nh nl kw => exact ⟨rfl, fun df horizon => rfl⟩
    | fit m df e b m' hr heq ih => simp [TransformerOccupancyModel.fit] at heq

/-- Claim C8, witness: the theorem applied to the freshly constructed
instances, which are reachable by the `init` rule. -/
theorem C8_fitted_state_unreachable_witness :
    ((ProphetOccupancyModel.init none "15min" []).model = none ∧
     (ProphetOccupancyModel.init none "15min" []).predict 1 false =
       .error (.valueError "Model must be fitted before prediction")) ∧
    ((TransformerOccupancyModel.init none 96 96 64 4 2 []).model = none ∧
     (TransformerOccupancyModel.init none 96 96 64 4 2 []).predict testDf none =
       .error (.valueError "Model must be fitted before prediction")) :=
  ⟨⟨(C8_fitted_state_unreachable.1 _ (ProphetReachable.init none "15min" [])).1,
    (C8_fitted_state_unreachable.1 _ (ProphetReachable.init none "15min" [])).2 1 false⟩,
   ⟨(C8_fitted_state_unreachable.2 _ (TransformerReachable.init none 96 96 64 4 2 [])).1,
    (C8_fitted_state_unreachable.2 _ (TransformerReachable.init none 96 96 64 4 2 [])).2 testDf none⟩⟩

/-! ## Claim C9 -/

/-- Claim C9: `engineer_features` is total at the public interface (returns
normally on every input), and it is the only public function in the package
whose normal-return branch is reachable: every other public function
raises on every input. -/
theorem C9_engineer_features_only_total_function :
    (∀ df tf lf lp, raisesError (engineer_features df tf lf lp) = false) ∧
    (∀ path pd, raisesError (load_occupancy path pd) = true) ∧
    (∀ path pd, raisesError (load_hvac path pd) = true) ∧
    (∀ path pd, raisesError (load_weather path pd) = true) ∧
    (∀ path pd, raisesError (load_tou path pd) = true) ∧
    (∀ path, raisesError (load_space_metadata path) = true) ∧
    (∀ o h f w, raisesError (merge_occupancy_hvac o h f w) = true) ∧
    (∀ df w, raisesError (add_weather_features df w) = true) ∧
    (∀ df t, raisesError (add_tou_features df t) = true) ∧
    (∀ df oc hc ec, raisesError (compute_opportunity_for_savings df oc hc ec) = true) ∧
    (∀ o h t c, raisesError (compute_savings_and_setpoints o h t c) = true) ∧
    (∀ df oc hc ec tc, raisesError (estimate_savings_potential df oc hc ec tc) = true) ∧
    (∀ df p pp, raisesError (simulate_control_policy df p pp) = true) ∧
    (∀ m df, raisesError (ProphetOccupancyModel.fit m df) = true) ∧
    (∀ m p ih, raisesError (ProphetOccupancyModel.predict m p ih) = true) ∧
    (∀ m df ms, raisesError (ProphetOccupancyModel.evaluate m df ms) = true) ∧
    (∀ m df e b, raisesError (TransformerOccupancyModel.fit m df e b) = true) ∧
    (∀ m df hz, raisesError (TransformerOccupancyModel.predict m df hz) = true) ∧
    (∀ m df ms, raisesError (TransformerOccupancyModel.evaluate m df ms) = true) ∧
    (∀ df dc oc tc fs t, raisesError (plot_daily_opportunity_for_savings df dc oc tc fs t) = true) ∧
    (∀ df d z fs, raisesError (plot_example_day_timeline df d z fs) = true) ∧
    (∀ df z a fs, raisesError (plot_occupancy_heatmap df z a fs) = true) ∧
    (∀ sd fs, raisesError (plot_savings_summary sd fs) = true) ∧
    (∀ df p, raisesError (create_interactive_dashboard df p) = true) := by
  refine ⟨?_, ?_, ?_, ?_, ?_, ?_, ?_, ?_, ?_, ?_, ?_, ?_, ?_, ?_, ?_, ?_, ?_,
    ?_, ?_, ?_, ?_, ?_, ?_, ?_⟩ <;>
    intros <;>
    first
      | rfl
      | (unfold simulate_control_policy; split <;> rfl)
      | (unfold ProphetOccupancyModel.predict; split <;> rfl)
      | (unfold TransformerOccupancyModel.predict; split <;> rfl)

/-! ## Claim C10 -/

/-- Claim C10: which exception `simulate_control_policy` raises depends
only on the policy string: two calls with the same policy but different
`historical_df` or `policy_params` produce identical results (same
exception class and message), and the DataFrame is never read — the result
does not depend on it at all. -/
theorem C10_simulate_depends_only_on_policy (df df2 : DataFrame)
    (policy : String) (params params2 : Option PyDict) :
    simulate_control_policy df policy params =
      simulate_control_policy df2 policy params2 :=
  rfl
